import Mathlib

/-!
Shallow embedding of the inclusive-learning-partner server and client
image-analysis code, together with proofs of the specification's claims.

The server is an Express application (src/unnamed/part_002, lines 272-579):
REST endpoints over a single JSON document { notes, captions, settings },
plus an image-analysis pipeline (cloud model, then local object detection
and OCR) and a cloud text-simplification endpoint.  The client analyzeImage
function (src/unnamed/part_001, lines 45-89) holds the demo-mode path.

External effects (the cloud call, the object detector, the OCR engine, the
image decoding libraries, the clock) are modelled as explicit parameters:
an `Except Unit _` value stands for a library call that either returns a
value or throws.
-/

namespace ILP

/-- Truthiness of an optional JSON string value, as JavaScript sees it:
`undefined`/absent and the empty string are falsy (`if (!text) ...`). -/
def jsFalsy : Option String → Bool
  | none => true
  | some s => s == ""

/-- JavaScript `v || dflt` for an optional string `v`:
the default is used exactly when `v` is falsy. -/
def jsOr (v : Option String) (dflt : String) : String :=
  match v with
  | none => dflt
  | some s => if s == "" then dflt else s

/-- A note record, as built by the notes POST handler:
`{ id: Date.now().toString(), text, date: new Date().toISOString() }`. -/
structure Note where
  id : String
  text : String
  date : String
deriving DecidableEq, Repr

/-- A caption record, as built by the captions POST handler:
`{ id: Date.now().toString(), text, timestamp: timestamp || new Date().toISOString() }`.
The text field is stored verbatim, even when absent from the request body. -/
structure Caption where
  id : String
  text : Option String
  timestamp : String
deriving DecidableEq, Repr

/-- The settings record: a JSON object seen as a partial map from keys to
(serialised) values.  A key absent from the object maps to `none`. -/
def SettingsMap : Type := String → Option String

/-- The JavaScript object spread `{ ...base, ...upd }`:
keys present in `upd` override, the rest come from `base`. -/
def spread (base upd : SettingsMap) : SettingsMap :=
  fun k => match upd k with
    | some v => some v
    | none => base k

/-- The persisted document `db.data`: `{ notes: [], captions: [], settings: {} }`. -/
structure DbState where
  notes : List Note
  captions : List Caption
  settings : SettingsMap

/-- Result of an endpoint that can answer with an error status
(`res.status(s).json({ error: msg })`) or a JSON body. -/
inductive ApiResult (α : Type) where
  | ok (body : α)
  | err (status : Nat) (message : String)
deriving DecidableEq, Repr

/-- GET /api/notes: `res.json(db.data.notes)`. -/
def getNotes (db : DbState) : List Note := db.notes

/-- POST /api/notes.  `now` is the value of `Date.now()` (milliseconds),
`iso` the value of `new Date().toISOString()`.  Missing/empty text is
rejected with 400; otherwise a record is pushed and returned. -/
def postNote (db : DbState) (text : Option String) (now : Nat) (iso : String) :
    ApiResult Note × DbState :=
  if jsFalsy text then
    (ApiResult.err 400 "Text required", db)
  else
    let newNote : Note := { id := Nat.repr now, text := text.getD "", date := iso }
    (ApiResult.ok newNote, { db with notes := db.notes ++ [newNote] })

/-- GET /api/captions: `res.json(db.data.captions)`. -/
def getCaptions (db : DbState) : List Caption := db.captions

/-- POST /api/captions.  No validation at all: a record is always pushed and
returned; the timestamp defaults to the server clock when falsy. -/
def postCaption (db : DbState) (text timestamp : Option String) (now : Nat)
    (iso : String) : Caption × DbState :=
  let newCaption : Caption :=
    { id := Nat.repr now, text := text, timestamp := jsOr timestamp iso }
  (newCaption, { db with captions := db.captions ++ [newCaption] })

/-- GET /api/settings: `res.json(db.data.settings)`. -/
def getSettings (db : DbState) : SettingsMap := db.settings

/-- POST /api/settings: `db.data.settings = { ...db.data.settings, ...settings }`,
then the merged record is both persisted and returned. -/
def postSettings (db : DbState) (body : SettingsMap) : SettingsMap × DbState :=
  let merged := spread db.settings body
  (merged, { db with settings := merged })

/-! ### Image decoding (`decodeImage`, src/unnamed/part_002 lines 359-396) -/

/-- JavaScript `s.endsWith(pat)`, computed on the character list. -/
def strEndsWith (s pat : String) : Bool := pat.data.isSuffixOf s.data

/-- An ASCII whitespace character, for `trim`. -/
def isWsChar (c : Char) : Bool := c = ' ' || c = '\n' || c = '\t' || c = '\r'

/-- JavaScript `s.trim()`: whitespace stripped from both ends. -/
def jsTrim (s : String) : String :=
  ⟨((s.data.dropWhile isWsChar).reverse.dropWhile isWsChar).reverse⟩

/-- JavaScript `s.replace(/\n/g, ' ')`: each newline becomes a space. -/
def collapseNewlines (s : String) : String :=
  ⟨s.data.map (fun c => if c = '\n' then ' ' else c)⟩

/-- A decoded pixel buffer as returned by `jpeg.decode` / `PNG.sync.read`:
an RGBA byte stream plus dimensions. -/
structure DecodedPix where
  data : List Nat
  width : Nat
  height : Nat
deriving DecidableEq, Repr

/-- The tensor built by `tf.tensor3d(values, [height, width, 3])`. -/
structure Tensor3D where
  values : List Nat
  height : Nat
  width : Nat
  channels : Nat
deriving DecidableEq, Repr

/-- The RGBA-to-RGB conversion loop: for each pixel take bytes `4*i`,
`4*i+1`, `4*i+2` and drop the alpha channel (out-of-range reads give 0,
as an Int32Array does for `undefined`). -/
def rgbValues (pixels : List Nat) (width height : Nat) : List Nat :=
  (List.range (width * height)).foldr
    (fun i acc =>
      pixels.getD (i * 4) 0 :: pixels.getD (i * 4 + 1) 0 ::
        pixels.getD (i * 4 + 2) 0 :: acc) []

/-- Decidable equality for `Except`, needed to derive it for the
environment records below. -/
instance exceptDecEq {ε α : Type} [DecidableEq ε] [DecidableEq α] :
    DecidableEq (Except ε α) := fun x y =>
  match x, y with
  | Except.ok a, Except.ok b =>
    if h : a = b then Decidable.isTrue (by rw [h])
    else Decidable.isFalse (by intro hh; injection hh; contradiction)
  | Except.ok _, Except.error _ =>
    Decidable.isFalse (fun hh => Except.noConfusion hh)
  | Except.error _, Except.ok _ =>
    Decidable.isFalse (fun hh => Except.noConfusion hh)
  | Except.error e, Except.error f =>
    if h : e = f then Decidable.isTrue (by rw [h])
    else Decidable.isFalse (by intro hh; injection hh; contradiction)

/-- Outcomes of the filesystem read and of the two decoding libraries that
`decodeImage` calls; an `Except.error` value stands for the call throwing. -/
structure DecodeEnv where
  readOk : Bool
  jpegResult : Except Unit DecodedPix
  pngResult : Except Unit DecodedPix
deriving DecidableEq, Repr

/-- `decodeImage`: reads the file (a throw there propagates to the caller,
since `fs.readFileSync` sits before the try block), then dispatches on the
file extension; only `.jpg`/`.jpeg`/`.png` are decoded, any other extension
returns `null`, and a decoding-library throw is caught and also yields
`null`. -/
def decodeImage (imagePath : String) (env : DecodeEnv) :
    Except Unit (Option Tensor3D) :=
  if !env.readOk then Except.error () else
    Except.ok (
      if strEndsWith imagePath ".jpg" || strEndsWith imagePath ".jpeg" then
        match env.jpegResult with
        | Except.ok d =>
          some { values := rgbValues d.data d.width d.height,
                 height := d.height, width := d.width, channels := 3 }
        | Except.error _ => none
      else if strEndsWith imagePath ".png" then
        match env.pngResult with
        | Except.ok d =>
          some { values := rgbValues d.data d.width d.height,
                 height := d.height, width := d.width, channels := 3 }
        | Except.error _ => none
      else none)

/-! ### POST /api/analyze-image (src/unnamed/part_002 lines 401-494) -/

/-- The uploaded file as multer presents it. -/
structure UploadedFile where
  path : String
  mimetype : String
deriving DecidableEq, Repr

/-- The request: an optional uploaded file and the `useGemini` form field
(a string; the handler compares it with the literal "true"). -/
structure AnalyzeReq where
  file : Option UploadedFile
  useGemini : String
deriving DecidableEq, Repr

/-- Environment of one analyze-image request: whether the cloud model was
initialised (the API key was present at startup), the outcome of the cloud
call, whether the object-detection model has finished loading, the decoding
outcomes, the detector's predicted class labels, and the OCR text. -/
structure AnalyzeEnv where
  modelConfigured : Bool
  cloudResult : Except Unit String
  detectorLoaded : Bool
  decodeEnv : DecodeEnv
  detectResult : Except Unit (List String)
  ocrResult : Except Unit String
deriving DecidableEq, Repr

/-- Response of the analyze-image endpoint: either
`{ description, source }` or an error status. -/
inductive AnalyzeResponse where
  | ok (description : String) (source : String)
  | err (status : Nat) (message : String)
deriving DecidableEq, Repr

/-- `[...new Set(xs)]`: duplicates removed, first-seen order kept. -/
def jsSetDedup (xs : List String) : List String :=
  xs.foldl (fun acc x => if acc.contains x then acc else acc ++ [x]) []

/-- The OCR fragment: recognised text (trimmed, newlines collapsed to
spaces) quoted, or a no-text notice. -/
def ocrFragment (text : String) : String :=
  if (jsTrim text).length > 0 then
    "Text found in image: \"" ++ collapseNewlines (jsTrim text) ++ "\"."
  else
    "No text found."

/-- Option B of the handler: local analysis.  The object-detection block is
wrapped in its own try/catch whose catch only logs — a throw from the file
read or from `detect` contributes no fragment at all.  The OCR block runs
unconditionally afterwards; a throw there reaches the outer catch and turns
into the generic 500. -/
def localAnalysis (file : UploadedFile) (env : AnalyzeEnv) : AnalyzeResponse :=
  let detectionParts : List String :=
    if env.detectorLoaded then
      match decodeImage file.path env.decodeEnv with
      | Except.error _ => []
      | Except.ok none => ["Could not process image format for object detection."]
      | Except.ok (some _) =>
        match env.detectResult with
        | Except.error _ => []
        | Except.ok preds =>
          if preds.length > 0 then
            ["This image contains: " ++
              String.intercalate ", " (jsSetDedup preds) ++ "."]
          else
            ["No specific objects detected."]
    else
      ["Object detection model not ready."]
  match env.ocrResult with
  | Except.error _ => AnalyzeResponse.err 500 "Failed to analyze image"
  | Except.ok text =>
    AnalyzeResponse.ok
      (String.intercalate " " (detectionParts ++ [ocrFragment text])) "local"

/-- POST /api/analyze-image.  400 without a file; the cloud branch runs when
`useGemini === 'true'` and the model is configured, answering with source
"gemini" on success; any throw in that branch is caught and falls through to
local analysis. -/
def analyzeImageHandler (req : AnalyzeReq) (env : AnalyzeEnv) : AnalyzeResponse :=
  match req.file with
  | none => AnalyzeResponse.err 400 "No image uploaded"
  | some file =>
    if (req.useGemini == "true") && env.modelConfigured then
      match env.cloudResult with
      | Except.ok text => AnalyzeResponse.ok text "gemini"
      | Except.error _ => localAnalysis file env
    else
      localAnalysis file env

/-! ### POST /api/simplify-text (src/unnamed/part_002 lines 497-525) -/

/-- Response of the simplify-text endpoint. -/
inductive SimplifyResponse where
  | ok (simplified : String)
  | err (status : Nat) (message : String)
deriving DecidableEq, Repr

/-- POST /api/simplify-text: 400 when the text field is falsy, 503 when the
cloud model is not configured, otherwise the cloud call's text, with a
throw turned into the generic 500. -/
def simplifyTextHandler (text : Option String) (modelConfigured : Bool)
    (cloudResult : Except Unit String) : SimplifyResponse :=
  if jsFalsy text then
    SimplifyResponse.err 400 "Text is required"
  else if !modelConfigured then
    SimplifyResponse.err 503 "Gemini service not available (API Key missing)"
  else
    match cloudResult with
    | Except.ok s => SimplifyResponse.ok s
    | Except.error _ => SimplifyResponse.err 500 "Failed to simplify text"

/-! ### One step of the server: any endpoint's effect on the document -/

/-- A call to any of the server's endpoints, with the external outcomes the
handler consumes. -/
inductive ApiCall where
  | getNotes
  | postNote (text : Option String)
  | getCaptions
  | postCaption (text timestamp : Option String)
  | getSettings
  | postSettings (body : SettingsMap)
  | analyzeImage (req : AnalyzeReq) (env : AnalyzeEnv)
  | simplifyText (text : Option String) (modelConfigured : Bool)
      (cloudResult : Except Unit String)

/-- The document after serving one request.  The GET handlers only read;
analyze-image and simplify-text never touch the document (they only touch
the uploads directory and the network). -/
def serverStep (db : DbState) (call : ApiCall) (now : Nat) (iso : String) :
    DbState :=
  match call with
  | ApiCall.getNotes => db
  | ApiCall.postNote t => (postNote db t now iso).2
  | ApiCall.getCaptions => db
  | ApiCall.postCaption t ts => (postCaption db t ts now iso).2
  | ApiCall.getSettings => db
  | ApiCall.postSettings b => (postSettings db b).2
  | ApiCall.analyzeImage _ _ => db
  | ApiCall.simplifyText _ _ _ => db

/-! ### Client-side analyzeImage (src/unnamed/part_001 lines 45-89) -/

/-- The five canned demo descriptions (`mockDescriptions`). -/
def mockDescriptions : List String :=
  ["A detailed diagram showing the water cycle, including evaporation from oceans, condensation forming clouds, precipitation as rain, and water flowing back to the ocean through rivers. The diagram uses blue arrows to show the direction of water movement.",
   "A mathematical graph displaying a parabola opening upward with its vertex at the origin. The x-axis ranges from -5 to 5, and the y-axis from 0 to 25. Grid lines are visible for reference.",
   "A historical photograph in black and white showing a crowd of people gathered in front of a large building with classical architecture. The image appears to be from the mid-20th century based on clothing styles.",
   "A scientific illustration of a plant cell with labeled organelles including the nucleus, cell wall, chloroplasts, mitochondria, and vacuole. The cell is shown in cross-section with different colors indicating different structures.",
   "A portrait photograph showing a person wearing glasses and smiling at the camera. The background is blurred with warm, neutral tones. The lighting is soft and evenly distributed."]

/-- Outcome of one run of the client analyzeImage function. -/
inductive ClientOutcome where
  | noAction
  | demo (delayMs : Nat) (description : String)
  | fromServer (description : String)
  | failureMessage (description : String)
deriving DecidableEq, Repr

/-- The client analyzeImage function.  `randIdx` is
`Math.floor(Math.random() * mockDescriptions.length)`; `serverResult` is
the outcome of the fetch to the server (`Except.error` covers a network
throw and a non-ok HTTP status alike, both of which land in the catch). -/
def clientAnalyzeImage (selectedImage : Option String) (demoMode : Bool)
    (randIdx : Nat) (serverResult : Except Unit (String × String)) :
    ClientOutcome :=
  match selectedImage with
  | none => ClientOutcome.noAction
  | some _ =>
    if demoMode then
      ClientOutcome.demo 1500
        ("[DEMO ANALYSIS]: " ++ mockDescriptions.getD randIdx "" ++
          " (Perfect confidence score: 99.9%)")
    else
      match serverResult with
      | Except.error _ =>
        ClientOutcome.failureMessage
          "Sorry, I couldn\x27t analyze this image. Please try again."
      | Except.ok (desc, source) =>
        ClientOutcome.fromServer
          ((if source == "gemini" then "✨ Analysis by Google Gemini"
            else "🤖 Analysis by TensorFlow.js (Local)") ++
            "\n\n" ++ desc)

/-! ### Helper: decimal decoding, used to show `Nat.repr` is injective
(record ids are `Date.now().toString()`). -/

/-- Decimal decoding of a digit-character list, folding from the left. -/
def decodeDec (acc : Nat) (l : List Char) : Nat :=
  l.foldl (fun a c => a * 10 + (c.toNat - 48)) acc

/-! ### Concrete sample objects used by witnesses and counterexamples -/

/-- The empty document, as created on first read. -/
def emptyDb : DbState := ⟨[], [], fun _ => none⟩

/-- A sample store holding one settings key. -/
def dbW : DbState := ⟨[], [], fun k => if k = "fontSize" then some "16" else none⟩

/-- A sample partial settings update. -/
def updW : SettingsMap := fun k => if k = "contrastMode" then some "dark" else none

/-- A sample uploaded JPEG file. -/
def fileW : UploadedFile := ⟨"photo.jpg", "image/jpeg"⟩

/-- A sample uploaded file in an unsupported container format. -/
def fileBmp : UploadedFile := ⟨"scan.bmp", "image/bmp"⟩

/-- Environment for the C1 counterexample: cloud configured but failing,
and the local OCR step throwing as well. -/
def envC1 : AnalyzeEnv :=
  ⟨true, Except.error (), true, ⟨true, Except.ok ⟨[1, 2, 3, 4], 1, 1⟩, Except.error ()⟩,
   Except.ok ["cat"], Except.error ()⟩

/-- Environment for the C1 witness: cloud configured but failing, local
path completing. -/
def envC1ok : AnalyzeEnv :=
  ⟨true, Except.error (), false, ⟨true, Except.error (), Except.error ()⟩,
   Except.ok [], Except.ok ""⟩

/-- Environment where the detector is loaded, decoding succeeds and
detection throws. -/
def envC4throw : AnalyzeEnv :=
  ⟨false, Except.error (), true, ⟨true, Except.ok ⟨[0, 0, 0, 0], 1, 1⟩, Except.error ()⟩,
   Except.error (), Except.ok ""⟩

/-- The same environment with the detector not yet loaded. -/
def envC4notLoaded : AnalyzeEnv :=
  ⟨false, Except.error (), false, ⟨true, Except.ok ⟨[0, 0, 0, 0], 1, 1⟩, Except.error ()⟩,
   Except.error (), Except.ok ""⟩

/-- Environment for the C5 counterexample: detector not yet loaded. -/
def envC5nl : AnalyzeEnv :=
  ⟨false, Except.error (), false, ⟨true, Except.error (), Except.error ()⟩,
   Except.ok [], Except.ok ""⟩

/-- Environment for the C5 witness: detector loaded, OCR finding text. -/
def envC5w : AnalyzeEnv :=
  ⟨false, Except.error (), true, ⟨true, Except.error (), Except.error ()⟩,
   Except.ok [], Except.ok "hello"⟩

/-! ## Theorems -/

/-- Unfolding lemma for `decodeDec`. -/
theorem decodeDec_cons (acc : Nat) (c : Char) (l : List Char) :
    decodeDec acc (c :: l) = decodeDec (acc * 10 + (c.toNat - 48)) l := rfl

/-- Decoding a digit character below 10 recovers the digit. -/
theorem digitChar_decode : ∀ d : Nat, d < 10 → (Nat.digitChar d).toNat - 48 = d := by
  decide

/-- Given enough fuel, the digits produced by `Nat.toDigitsCore` decode back
to the number they were produced from. -/
theorem toDigitsCore_decode :
    ∀ (fuel n : Nat) (ds : List Char), n < fuel →
      decodeDec 0 (Nat.toDigitsCore 10 fuel n ds) = decodeDec n ds := by
  intro fuel
  induction fuel with
  | zero => intro n ds h; exact absurd h (Nat.not_lt_zero n)
  | succ f ih =>
    intro n ds h
    simp only [Nat.toDigitsCore]
    split
    · rw [decodeDec_cons, digitChar_decode (n % 10) (Nat.mod_lt n (by decide))]
      congr 1
      omega
    · rename_i h10
      rw [ih (n / 10) _ (by omega), decodeDec_cons,
        digitChar_decode (n % 10) (Nat.mod_lt n (by decide))]
      congr 1
      omega

/-- `Nat.repr` (decimal printing, the record-id function) is injective. -/
theorem Nat_repr_inj : ∀ m n : Nat, Nat.repr m = Nat.repr n → m = n := by
  intro m n h
  have hl : Nat.toDigits 10 m = Nat.toDigits 10 n := congrArg String.data h
  have hm : decodeDec 0 (Nat.toDigits 10 m) = m :=
    toDigitsCore_decode (m + 1) m [] (Nat.lt_succ_self m)
  have hn : decodeDec 0 (Nat.toDigits 10 n) = n :=
    toDigitsCore_decode (n + 1) n [] (Nat.lt_succ_self n)
  rw [← hm, hl, hn]

/-- Claim C3: POSTing a partial settings update and then GETting settings
yields the previous settings merged with the update — keys present in the
update take its values, all other keys are unchanged — and the POST
response itself is exactly this merged record. -/
theorem C3_settings_merge_roundtrip (db : DbState) (u : SettingsMap) (k : String) :
    (∀ v, u k = some v → (postSettings db u).1 k = some v)
    ∧ (u k = none → (postSettings db u).1 k = db.settings k)
    ∧ getSettings (postSettings db u).2 k = (postSettings db u).1 k := by
  refine ⟨?_, ?_, rfl⟩
  · intro v hv
    simp [postSettings, spread, hv]
  · intro hv
    simp [postSettings, spread, hv]

/-- Witness for C3 at a concrete store and update. -/
theorem C3_witness :
    (postSettings dbW updW).1 "contrastMode" = some "dark"
    ∧ (postSettings dbW updW).1 "fontSize" = some "16"
    ∧ getSettings (postSettings dbW updW).2 "contrastMode"
        = (postSettings dbW updW).1 "contrastMode" := by
  refine ⟨(C3_settings_merge_roundtrip dbW updW "contrastMode").1 "dark" rfl, ?_,
    (C3_settings_merge_roundtrip dbW updW "contrastMode").2.2⟩
  have h := (C3_settings_merge_roundtrip dbW updW "fontSize").2.1 rfl
  exact h

/-- Counterexample to C6 as stated: two distinct successful note POSTs in
the same `Date.now()` millisecond receive the same id "42", so ids of
records created by distinct POSTs are not always unique. -/
theorem C6_counterexample :
    ((postNote (postNote emptyDb (some "first") 42 "d1").2 (some "second") 42 "d2").2.notes.map
        Note.id) = ["42", "42"]
    ∧ ((postNote (postNote emptyDb (some "first") 42 "d1").2 (some "second") 42 "d2").2.notes.map
        Note.text) = ["first", "second"] := ⟨rfl, rfl⟩

/-- Claim C6 (amended): POST /api/notes with non-empty text answers with the
created note carrying the POSTed text; after a second POST both records
appear in the GET list unchanged; and the ids are unique provided the two
POSTs happen at distinct `Date.now()` milliseconds (the id is the decimal
representation of that clock value). -/
theorem C6_notes_post_get (db : DbState) (s1 s2 : String) (n1 n2 : Nat)
    (d1 d2 : String) (hs1 : s1 ≠ "") (hs2 : s2 ≠ "") (hn : n1 ≠ n2) :
    (postNote db (some s1) n1 d1).1 = ApiResult.ok ⟨Nat.repr n1, s1, d1⟩
    ∧ (postNote (postNote db (some s1) n1 d1).2 (some s2) n2 d2).1
        = ApiResult.ok ⟨Nat.repr n2, s2, d2⟩
    ∧ (⟨Nat.repr n1, s1, d1⟩ : Note)
        ∈ getNotes (postNote (postNote db (some s1) n1 d1).2 (some s2) n2 d2).2
    ∧ (⟨Nat.repr n2, s2, d2⟩ : Note)
        ∈ getNotes (postNote (postNote db (some s1) n1 d1).2 (some s2) n2 d2).2
    ∧ Nat.repr n1 ≠ Nat.repr n2 := by
  have h1 : jsFalsy (some s1) = false := by simp [jsFalsy, hs1]
  have h2 : jsFalsy (some s2) = false := by simp [jsFalsy, hs2]
  refine ⟨?_, ?_, ?_, ?_, fun hr => hn (Nat_repr_inj n1 n2 hr)⟩ <;>
    simp [postNote, getNotes, h1, h2]

/-- Witness for C6 at concrete texts and clock values. -/
theorem C6_witness :
    (postNote emptyDb (some "alpha") 1 "t1").1
      = ApiResult.ok ⟨"1", "alpha", "t1"⟩ :=
  (C6_notes_post_get emptyDb "alpha" "beta" 1 2 "t1" "t2" (by decide) (by decide)
    (by decide)).1

/-- Counterexample to C7 as stated: POST /api/captions with no text field
does not fail with 400 — it creates and returns a record whose text is
absent, and the stored list grows by exactly that record. -/
theorem C7_counterexample :
    (postCaption emptyDb none none 7 "T").1
      = ({ id := "7", text := none, timestamp := "T" } : Caption)
    ∧ (postCaption emptyDb none none 7 "T").2.captions
      = [{ id := "7", text := none, timestamp := "T" }] := ⟨rfl, rfl⟩

/-- Claim C7 (amended): POST /api/notes performs the presence check — a
falsy text yields a 400 missing-input error and leaves the store
unchanged — but POST /api/captions performs no such check: it always
appends exactly one record, even when the text is missing. -/
theorem C7_presence_check (db : DbState) (t ts : Option String) (n : Nat)
    (iso : String) (ht : jsFalsy t = true) :
    postNote db t n iso = (ApiResult.err 400 "Text required", db)
    ∧ (postCaption db t ts n iso).2.captions
        = db.captions ++ [(postCaption db t ts n iso).1] := by
  exact ⟨by simp [postNote, ht], rfl⟩

/-- Witness for C7 at a concrete missing text. -/
theorem C7_witness :
    postNote emptyDb none 3 "t" = (ApiResult.err 400 "Text required", emptyDb) :=
  (C7_presence_check emptyDb none none 3 "t" (by decide)).1

/-- Claim C8: with a non-empty text field, simplify-text answers the 503
unavailable-capability error exactly when the cloud model is not
configured; when it is configured and the cloud call succeeds, the response
carries the simplified text. -/
theorem C8_simplify_text (s : String) (mc : Bool) (cr : Except Unit String)
    (hs : s ≠ "") :
    ((simplifyTextHandler (some s) mc cr
        = SimplifyResponse.err 503 "Gemini service not available (API Key missing)")
      ↔ mc = false)
    ∧ (∀ t, mc = true → cr = Except.ok t →
        simplifyTextHandler (some s) mc cr = SimplifyResponse.ok t) := by
  have hf : jsFalsy (some s) = false := by simp [jsFalsy, hs]
  cases mc with
  | false =>
    refine ⟨⟨fun _ => rfl, fun _ => by simp [simplifyTextHandler, hf]⟩, ?_⟩
    intro t hmc
    exact absurd hmc (by decide)
  | true =>
    refine ⟨⟨fun h => ?_, fun h => absurd h (by decide)⟩, fun t _ hcr => ?_⟩
    · cases cr <;> simp [simplifyTextHandler, hf] at h
    · simp [simplifyTextHandler, hf, hcr]

/-- Witness for C8: unconfigured model answers 503, configured succeeding
model answers the simplified text. -/
theorem C8_witness :
    simplifyTextHandler (some "hello") false (Except.ok "h")
      = SimplifyResponse.err 503 "Gemini service not available (API Key missing)"
    ∧ simplifyTextHandler (some "hello") true (Except.ok "h")
      = SimplifyResponse.ok "h" :=
  ⟨((C8_simplify_text "hello" false (Except.ok "h") (by decide)).1).2 rfl,
   (C8_simplify_text "hello" true (Except.ok "h") (by decide)).2 "h" rfl rfl⟩

/-- Claim C9: every endpoint leaves previously stored notes and captions
unchanged — the old lists are always a prefix of the new ones, so no record
is updated or deleted — and each successful creating POST appends exactly
one record at the end of its list. -/
theorem C9_append_only (db : DbState) (call : ApiCall) (now : Nat) (iso : String) :
    (∃ s, (serverStep db call now iso).notes = db.notes ++ s)
    ∧ (∃ s, (serverStep db call now iso).captions = db.captions ++ s)
    ∧ (∀ t, call = ApiCall.postNote t → jsFalsy t = false →
        (serverStep db call now iso).notes
          = db.notes ++ [⟨Nat.repr now, t.getD "", iso⟩])
    ∧ (∀ t ts, call = ApiCall.postCaption t ts →
        (serverStep db call now iso).captions
          = db.captions ++ [⟨Nat.repr now, t, jsOr ts iso⟩]) := by
  cases call with
  | postNote t =>
    cases hft : jsFalsy t with
    | true =>
      refine ⟨⟨[], ?_⟩, ⟨[], ?_⟩, ?_, ?_⟩
      · show (postNote db t now iso).2.notes = db.notes ++ []
        simp [postNote, hft]
      · show (postNote db t now iso).2.captions = db.captions ++ []
        simp [postNote, hft]
      · intro t' ht' hf
        injection ht' with h
        subst h
        rw [hft] at hf
        exact absurd hf (by decide)
      · intro t' ts' ht'
        exact ApiCall.noConfusion ht'
    | false =>
      refine ⟨⟨[⟨Nat.repr now, t.getD "", iso⟩], ?_⟩, ⟨[], ?_⟩, ?_, ?_⟩
      · show (postNote db t now iso).2.notes
          = db.notes ++ [⟨Nat.repr now, t.getD "", iso⟩]
        simp [postNote, hft]
      · show (postNote db t now iso).2.captions = db.captions ++ []
        simp [postNote, hft]
      · intro t' ht' _
        injection ht' with h
        subst h
        show (postNote db t now iso).2.notes
          = db.notes ++ [⟨Nat.repr now, t.getD "", iso⟩]
        simp [postNote, hft]
      · intro t' ts' ht'
        exact ApiCall.noConfusion ht'
  | postCaption t ts =>
    refine ⟨⟨[], (List.append_nil _).symm⟩,
      ⟨[⟨Nat.repr now, t, jsOr ts iso⟩], rfl⟩, ?_, ?_⟩
    · intro t' ht' _
      exact ApiCall.noConfusion ht'
    · intro t' ts' ht'
      injection ht' with h1 h2
      subst h1
      subst h2
      rfl
  | getNotes =>
    exact ⟨⟨[], (List.append_nil _).symm⟩, ⟨[], (List.append_nil _).symm⟩,
      fun t ht _ => ApiCall.noConfusion ht, fun t ts ht => ApiCall.noConfusion ht⟩
  | getCaptions =>
    exact ⟨⟨[], (List.append_nil _).symm⟩, ⟨[], (List.append_nil _).symm⟩,
      fun t ht _ => ApiCall.noConfusion ht, fun t ts ht => ApiCall.noConfusion ht⟩
  | getSettings =>
    exact ⟨⟨[], (List.append_nil _).symm⟩, ⟨[], (List.append_nil _).symm⟩,
      fun t ht _ => ApiCall.noConfusion ht, fun t ts ht => ApiCall.noConfusion ht⟩
  | postSettings b =>
    exact ⟨⟨[], (List.append_nil _).symm⟩, ⟨[], (List.append_nil _).symm⟩,
      fun t ht _ => ApiCall.noConfusion ht, fun t ts ht => ApiCall.noConfusion ht⟩
  | analyzeImage req env =>
    exact ⟨⟨[], (List.append_nil _).symm⟩, ⟨[], (List.append_nil _).symm⟩,
      fun t ht _ => ApiCall.noConfusion ht, fun t ts ht => ApiCall.noConfusion ht⟩
  | simplifyText t mc cr =>
    exact ⟨⟨[], (List.append_nil _).symm⟩, ⟨[], (List.append_nil _).symm⟩,
      fun t' ht _ => ApiCall.noConfusion ht, fun t' ts' ht => ApiCall.noConfusion ht⟩

/-- Witness for C9: a concrete caption POST appends exactly its record. -/
theorem C9_witness :
    (serverStep emptyDb (ApiCall.postCaption (some "hello") none) 9 "T").captions
      = emptyDb.captions ++ [⟨"9", some "hello", "T"⟩] :=
  (C9_append_only emptyDb (ApiCall.postCaption (some "hello") none) 9 "T").2.2.2
    (some "hello") none rfl

/-- Claim C10: a caption POST with a falsy timestamp stores and returns the
server's current ISO time as the timestamp; a truthy timestamp is stored
verbatim; and the returned caption is exactly the appended record. -/
theorem C10_caption_timestamp (db : DbState) (t ts : Option String) (n : Nat)
    (iso : String) :
    (jsFalsy ts = true → ((postCaption db t ts n iso).1).timestamp = iso)
    ∧ (∀ s, ts = some s → s ≠ "" → ((postCaption db t ts n iso).1).timestamp = s)
    ∧ (postCaption db t ts n iso).2.captions
        = db.captions ++ [(postCaption db t ts n iso).1] := by
  refine ⟨?_, ?_, rfl⟩
  · intro h
    show jsOr ts iso = iso
    cases ts with
    | none => rfl
    | some s =>
      simp [jsFalsy] at h
      simp [jsOr, h]
  · intro s hs hne
    subst hs
    show jsOr (some s) iso = s
    simp [jsOr, hne]

/-- Witness for C10: empty-string timestamp is replaced by the clock, a
real timestamp is kept verbatim. -/
theorem C10_witness :
    ((postCaption emptyDb (some "x") (some "") 5 "NOW").1).timestamp = "NOW"
    ∧ ((postCaption emptyDb (some "x") (some "10:00") 5 "NOW").1).timestamp = "10:00" :=
  ⟨(C10_caption_timestamp emptyDb (some "x") (some "") 5 "NOW").1 (by decide),
   (C10_caption_timestamp emptyDb (some "x") (some "10:00") 5 "NOW").2.1 "10:00" rfl
     (by decide)⟩

/-- Counterexample to C1 as stated: cloud analysis requested and the model
configured, the cloud call fails — but the OCR step of the local fallback
also throws, so the request answers 500 rather than succeeding with source
"local". -/
theorem C1_counterexample :
    analyzeImageHandler ⟨some fileW, "true"⟩ envC1
      = AnalyzeResponse.err 500 "Failed to analyze image"
    ∧ envC1.modelConfigured = true
    ∧ envC1.cloudResult = Except.error () := ⟨rfl, rfl, rfl⟩

/-- Claim C1 (amended): when cloud analysis is requested, the model is
configured and the cloud call fails, the handler behaves exactly as local
analysis alone would — the cloud error itself is never propagated — and
whenever the local OCR step completes, the request succeeds with source
"local". -/
theorem C1_cloud_failure_falls_back (f : UploadedFile) (env : AnalyzeEnv)
    (hm : env.modelConfigured = true) (hc : env.cloudResult = Except.error ()) :
    analyzeImageHandler ⟨some f, "true"⟩ env = localAnalysis f env
    ∧ (∀ t, env.ocrResult = Except.ok t →
        ∃ d, analyzeImageHandler ⟨some f, "true"⟩ env
          = AnalyzeResponse.ok d "local") := by
  have h1 : analyzeImageHandler ⟨some f, "true"⟩ env = localAnalysis f env := by
    simp [analyzeImageHandler, hm, hc]
  refine ⟨h1, fun t ht => ?_⟩
  rw [h1]
  unfold localAnalysis
  rw [ht]
  exact ⟨_, rfl⟩

/-- Witness for C1 at a concrete failing cloud call. -/
theorem C1_witness :
    analyzeImageHandler ⟨some fileW, "true"⟩ envC1ok = localAnalysis fileW envC1ok :=
  (C1_cloud_failure_falls_back fileW envC1ok rfl rfl).1

/-- Claim C2: with demo mode active and an image selected, the client
analysis path always produces the synthetic demo outcome after the fixed
1500 ms delay — one of the five pre-written descriptions — independently of
the server outcome (no network result is consulted) and never an error,
whatever the selected image is. -/
theorem C2_demo_mode (img : String) (r : Nat)
    (sr sr' : Except Unit (String × String)) (hr : r < 5) :
    clientAnalyzeImage (some img) true r sr
      = ClientOutcome.demo 1500
          ("[DEMO ANALYSIS]: " ++ mockDescriptions.getD r "" ++
            " (Perfect confidence score: 99.9%)")
    ∧ mockDescriptions.getD r "" ∈ mockDescriptions
    ∧ clientAnalyzeImage (some img) true r sr
        = clientAnalyzeImage (some img) true r sr' := by
  refine ⟨rfl, ?_, rfl⟩
  interval_cases r <;> simp [mockDescriptions]

/-- Witness for C2 at a concrete (even invalid) image and random index. -/
theorem C2_witness :
    clientAnalyzeImage (some "not-even-an-image") true 0 (Except.error ())
      = ClientOutcome.demo 1500
          ("[DEMO ANALYSIS]: " ++ mockDescriptions.getD 0 "" ++
            " (Perfect confidence score: 99.9%)") :=
  (C2_demo_mode "not-even-an-image" 0 (Except.error ()) (Except.ok ("d", "local"))
    (by decide)).1

/-- Counterexample to C4 as stated: the detector is loaded, decoding
succeeds, but detection throws — the description then contains no
object-detection fragment at all, unlike the not-yet-loaded case, whose
explanatory fragment does appear. -/
theorem C4_counterexample :
    analyzeImageHandler ⟨some fileW, "false"⟩ envC4throw
      = AnalyzeResponse.ok "No text found." "local"
    ∧ analyzeImageHandler ⟨some fileW, "false"⟩ envC4notLoaded
      = AnalyzeResponse.ok "Object detection model not ready. No text found." "local"
    := ⟨rfl, rfl⟩

/-- Claim C4 (amended): when the detector has loaded, decoding succeeds and
detection throws, the request is not aborted — local analysis proceeds to
OCR and answers with source "local" — but no explanatory fragment is
substituted: the description is the OCR fragment alone. -/
theorem C4_detection_throw (f : UploadedFile) (env : AnalyzeEnv) (tsr : Tensor3D)
    (t : String) (hl : env.detectorLoaded = true)
    (hd : decodeImage f.path env.decodeEnv = Except.ok (some tsr))
    (hdet : env.detectResult = Except.error ())
    (ho : env.ocrResult = Except.ok t) :
    localAnalysis f env = AnalyzeResponse.ok (ocrFragment t) "local" := by
  unfold localAnalysis
  rw [hl, hd, hdet, ho]
  rfl

/-- Witness for C4 at a concrete throwing detection. -/
theorem C4_witness :
    localAnalysis fileW envC4throw = AnalyzeResponse.ok (ocrFragment "") "local" :=
  C4_detection_throw fileW envC4throw ⟨[0, 0, 0], 1, 1, 3⟩ "" rfl rfl rfl rfl

/-- Counterexample to C5 as stated: an unsupported container processed
locally while the detector has not yet loaded — the object-detection
fragment reads "model not ready", not the unsupported-format text. -/
theorem C5_counterexample :
    analyzeImageHandler ⟨some fileBmp, "false"⟩ envC5nl
      = AnalyzeResponse.ok "Object detection model not ready. No text found." "local"
    ∧ analyzeImageHandler ⟨some fileBmp, "false"⟩ envC5nl
      ≠ AnalyzeResponse.ok
          "Could not process image format for object detection. No text found."
          "local" := by
  have hr : analyzeImageHandler ⟨some fileBmp, "false"⟩ envC5nl
      = AnalyzeResponse.ok "Object detection model not ready. No text found."
          "local" := rfl
  exact ⟨hr, fun h => absurd (hr.symm.trans h) (by decide)⟩

/-- Claim C5 (amended): for a locally processed request whose file has an
unsupported extension, provided the detector has finished loading and the
file read succeeds, the object-detection fragment is the unsupported-format
text, and the OCR fragment is computed independently from the original file
whenever the OCR call completes. -/
theorem C5_unsupported_format (f : UploadedFile) (env : AnalyzeEnv) (t : String)
    (hl : env.detectorLoaded = true) (hread : env.decodeEnv.readOk = true)
    (hjpg : strEndsWith f.path ".jpg" = false)
    (hjpeg : strEndsWith f.path ".jpeg" = false)
    (hpng : strEndsWith f.path ".png" = false)
    (ho : env.ocrResult = Except.ok t) :
    analyzeImageHandler ⟨some f, "false"⟩ env
      = AnalyzeResponse.ok
          ("Could not process image format for object detection. " ++ ocrFragment t)
          "local" := by
  have hdec : decodeImage f.path env.decodeEnv = Except.ok none := by
    unfold decodeImage
    rw [hread, hjpg, hjpeg, hpng]
    rfl
  have hloc : analyzeImageHandler ⟨some f, "false"⟩ env = localAnalysis f env := rfl
  rw [hloc]
  unfold localAnalysis
  rw [hl, hdec, ho]
  rfl

/-- Witness for C5 at a concrete bitmap upload with OCR finding text. -/
theorem C5_witness :
    analyzeImageHandler ⟨some fileBmp, "false"⟩ envC5w
      = AnalyzeResponse.ok
          ("Could not process image format for object detection. " ++
            ocrFragment "hello")
          "local" :=
  C5_unsupported_format fileBmp envC5w "hello" rfl rfl (by decide) (by decide)
    (by decide) rfl

end ILP
